import Mathlib

/-!
Verification development for the typing-keyboard audio application
(recording capture, multi-track jam session placement, and playback engine).

The definitions below are a shallow embedding of the JavaScript sources:
  - recording.js            (Recording / RecordedNote data model)
  - storage.js              (localStorage persistence of recordings)
  - jamSession.js           (JamTrack / JamSession, lane placement)
  - jamPlayback.js          (JamPlaybackEngine: parts, seek, stop, mute/solo)
  - RecordingsList.js       (single-recording playback engine)
  - page.js                 (recorder toggle, capture path, auto-save effect)

JavaScript numbers are modelled as rationals (ℚ), object identity by plain
fields, and the browser clock by an explicit parameter.  The fallible parts
return Except/Option.
-/

namespace TypeJam

/-- One captured keypress, as produced by the capture path in page.js
(fields instrument, note, row, i, len, timestamp, duration, velocity). -/
structure RecordedNote where
  instrument : String
  note : String
  row : String
  i : ℚ
  len : ℚ
  timestamp : ℚ
  duration : String
  velocity : ℚ
  deriving Repr, DecidableEq

/-- A finalized recording, as produced by createEmptyRecording in recording.js
and finalized by toggleRecording in page.js. -/
structure Recording where
  id : String
  name : String
  instrument : String
  notes : List RecordedNote
  duration : ℚ
  deriving Repr, DecidableEq

/-- A clip placed on the jam board, as produced by createJamTrack in
jamSession.js (duration is stored in seconds there). -/
structure JamTrack where
  id : ℕ
  recordingId : String
  startTime : ℚ
  trackIndex : ℕ
  volume : ℚ
  muted : Bool
  solo : Bool
  duration : ℚ
  deriving Repr, DecidableEq

/-- The jam session: the fields of createEmptyJamSession in jamSession.js that
the placement and playback logic reads (tracks and derived duration). -/
structure JamSession where
  tracks : List JamTrack
  duration : ℚ
  deriving Repr, DecidableEq

/-- createJamTrack from jamSession.js: volume 1, not muted, not soloed,
duration copied from the recording and converted from ms to seconds.  The
crypto.randomUUID id is modelled by an explicit fresh numeric id. -/
def createJamTrack (recording : Recording) (startTime : ℚ) (trackIndex : ℕ)
    (freshId : ℕ) : JamTrack :=
  { id := freshId
    recordingId := recording.id
    startTime := startTime
    trackIndex := trackIndex
    volume := 1
    muted := false
    solo := false
    duration := recording.duration / 1000 }

/-- calculateJamDuration from jamSession.js: the latest end time
startTime + duration over all tracks (0 for an empty session). -/
def calculateJamDuration (s : JamSession) : ℚ :=
  s.tracks.foldl (fun latest t => max latest (t.startTime + t.duration)) 0

/-- updateJamSession from jamSession.js (the modified timestamp is not part
of the behaviour under verification). -/
def updateJamSession (s : JamSession) : JamSession :=
  { s with duration := calculateJamDuration s }

/-- The overlap test used by findAvailableTrackIndex in jamSession.js:
a candidate interval [startTime, endTime) overlaps an existing track t iff
startTime < t.startTime + t.duration and t.startTime < endTime. -/
def overlapsTrack (startTime endTime : ℚ) (t : JamTrack) : Bool :=
  decide (startTime < t.startTime + t.duration) && decide (t.startTime < endTime)

/-- findAvailableTrackIndex from jamSession.js: probe lane indices from
preferredTrackIndex up to 9; return the first lane none of whose tracks
overlaps [startTime, startTime + duration); if every probed lane overlaps
(or the loop body never runs because preferredTrackIndex is at least 10),
fall back to jamSession.tracks.length. -/
def findAvailableTrackIndex (s : JamSession) (preferredTrackIndex : ℕ)
    (startTime duration : ℚ) : ℕ :=
  let endTime := startTime + duration
  let probe := (List.range' preferredTrackIndex (10 - preferredTrackIndex)).find?
    (fun trackIndex =>
      let tracksOnThisIndex := s.tracks.filter (fun t => t.trackIndex == trackIndex)
      !(tracksOnThisIndex.any (overlapsTrack startTime endTime)))
  match probe with
  | some trackIndex => trackIndex
  | none => s.tracks.length

/-- addTrackToSession from jamSession.js: append the track and recompute the
session duration via updateJamSession. -/
def addTrackToSession (s : JamSession) (t : JamTrack) : JamSession :=
  updateJamSession { s with tracks := s.tracks ++ [t] }

/-- The addTrack (clip placement) operation of the session engine: resolve
the lane with findAvailableTrackIndex, build the track with createJamTrack,
and append it with addTrackToSession. -/
def addTrack (s : JamSession) (recording : Recording)
    (startOffsetSec : ℚ) (laneIndex : ℕ) : JamSession :=
  let dur := recording.duration / 1000
  let lane := findAvailableTrackIndex s laneIndex startOffsetSec dur
  addTrackToSession s (createJamTrack recording startOffsetSec lane s.tracks.length)

/-- The per-lane no-overlap invariant claimed by the spec (P5): any two
tracks sharing a lane index have non-overlapping [start, start+duration)
intervals. -/
def lanesNoOverlap : List JamTrack → Bool
  | [] => true
  | t :: ts =>
    ts.all (fun u =>
      !(u.trackIndex == t.trackIndex
        && overlapsTrack t.startTime (t.startTime + t.duration) u))
    && lanesNoOverlap ts

/-- A one-second recording (1000 ms) with no notes, used as a concrete
placement input. -/
def clipRecording : Recording :=
  { id := "r1", name := "", instrument := "piano", notes := [], duration := 1000 }

/-- The empty jam session (createEmptyJamSession). -/
def emptySession : JamSession := { tracks := [], duration := 0 }

/-- The session reached from the empty session by four addTrack calls, all
placing the one-second clipRecording at start offset 0, with requested lanes
3, 9, 9, 9.  The first two probes succeed (lanes 3 and 9); the third call
finds lane 9 occupied, exhausts the probe range, and falls back to
tracks.length = 2; the fourth call falls back to tracks.length = 3 — a lane
that already holds an overlapping track. -/
def overlapSession : JamSession :=
  addTrack
    (addTrack
      (addTrack
        (addTrack emptySession clipRecording 0 3)
        clipRecording 0 9)
      clipRecording 0 9)
    clipRecording 0 9

-- ===========================================================================
-- Playback event construction (createParts in jamPlayback.js)
-- ===========================================================================

/-- One Tone.Part event as built by the events map of createParts in
jamPlayback.js. -/
structure ToneEvent where
  time : ℚ
  note : String
  duration : String
  velocity : ℚ
  row : String
  i : ℚ
  len : ℚ
  deriving Repr, DecidableEq

/-- The JavaScript expression x || d on a number x: 0 is falsy, every other
finite number is truthy. -/
def jsOr (x d : ℚ) : ℚ := if x = 0 then d else x

/-- The events map of createParts (and recreateTrackPart) in jamPlayback.js:
time is max(0, (track.startTime || 0) + (note.timestamp || 0)/1000) and
velocity is max(0, min(1, (note.velocity || 0.5) * (track.volume || 1))). -/
def toneEventOfNote (track : JamTrack) (n : RecordedNote) : ToneEvent :=
  { time := max 0 (jsOr track.startTime 0 + jsOr n.timestamp 0 / 1000)
    note := n.note
    duration := n.duration
    velocity := max 0 (min 1 (jsOr n.velocity (1/2) * jsOr track.volume 1))
    row := n.row
    i := n.i
    len := n.len }

/-- The guard at the top of the Tone.Part callback in createParts: the event
is skipped when the track is muted, or when some track of the session is
soloed while this track is not. -/
def partCallbackSkips (tracks : List JamTrack) (track : JamTrack) : Bool :=
  track.muted || ((tracks.any (fun t => t.solo)) && !track.solo)

/-- The events of a track that actually reach instrument.play during a run:
none when the callback guard fires, otherwise every scheduled event of the
track. -/
def soundingEvents (tracks : List JamTrack) (recording : Recording)
    (track : JamTrack) : List ToneEvent :=
  if partCallbackSkips tracks track then []
  else recording.notes.map (toneEventOfNote track)

-- ===========================================================================
-- Transport and playback engine state (jamPlayback.js, RecordingsList.js)
-- ===========================================================================

/-- The slice of the shared Tone.Transport state that the engines read and
write: whether it is running, its position in seconds, and the pending
one-shot callbacks scheduled with scheduleOnce, by absolute time. -/
structure TransportState where
  running : Bool
  position : ℚ
  scheduled : List ℚ
  deriving Repr, DecidableEq

/-- The slice of a Tone.Part the engine manipulates: whether the part has
been started on the transport. -/
structure PartState where
  started : Bool
  deriving Repr, DecidableEq

/-- The JamPlaybackEngine state: the constructor fields of jamPlayback.js
that the transport controls read and write, together with the transport and
the per-track parts. -/
structure JamEngine where
  isPlaying : Bool
  isPaused : Bool
  currentTime : ℚ
  duration : ℚ
  transport : TransportState
  parts : List PartState
  timeTracking : Bool
  deriving Repr, DecidableEq

/-- JamPlaybackEngine.stop: stop the Transport (its stop listener clears
isPlaying and isPaused and ends time tracking), cancel all scheduled
events, reset the position to 0, stop every part, and reset the engine
flags and currentTime. -/
def JamEngine.stop (e : JamEngine) : JamEngine :=
  { e with
    transport := { running := false, position := 0, scheduled := [] }
    parts := e.parts.map (fun _ => { started := false })
    isPlaying := false
    isPaused := false
    currentTime := 0
    timeTracking := false }

/-- JamPlaybackEngine.play, for an engine with a session loaded.  Resuming
from pause only restarts the Transport.  Otherwise the engine performs a
fresh start: position and currentTime are reset to 0, every part is started
at 0, the automatic stop is scheduled at the session duration when that is
positive, and the Transport is started (its start listener sets isPlaying
and begins time tracking). -/
def JamEngine.play (e : JamEngine) : JamEngine :=
  if e.isPaused then
    { e with
      transport := { e.transport with running := true }
      isPlaying := true
      isPaused := false
      timeTracking := true }
  else
    { e with
      transport :=
        { running := true
          position := 0
          scheduled := e.transport.scheduled
            ++ (if 0 < e.duration then [e.duration] else []) }
      parts := e.parts.map (fun _ => { started := true })
      currentTime := 0
      isPlaying := true
      isPaused := false
      timeTracking := true }

/-- JamPlaybackEngine.seek: clamp the requested time to [0, duration] (a 0
duration is falsy in the source and clamps to 0, which coincides with the
plain clamp on rationals), remember whether playback was active, stop, set
currentTime and the transport position to the clamped time, and when
playback was active call play again. -/
def JamEngine.seek (e : JamEngine) (timeInSeconds : ℚ) : JamEngine :=
  let clampedTime := max 0 (min timeInSeconds e.duration)
  let wasPlaying := e.isPlaying
  let stopped := e.stop
  let repositioned :=
    { stopped with
      currentTime := clampedTime
      transport := { stopped.transport with position := max 0 clampedTime } }
  if wasPlaying then repositioned.play else repositioned

/-- The absolute event times of a part that fire during the current run:
those at or after the transport position when the transport is running. -/
def eventsThatFire (e : JamEngine) (eventTimes : List ℚ) : List ℚ :=
  if e.transport.running then
    eventTimes.filter (fun t => decide (e.transport.position ≤ t))
  else []

/-- A 10-second session engine in the middle of playback, at position 4
seconds, with one running part and the automatic stop scheduled at 10. -/
def playingEngine : JamEngine :=
  { isPlaying := true
    isPaused := false
    currentTime := 4
    duration := 10
    transport := { running := true, position := 4, scheduled := [10] }
    parts := [{ started := true }]
    timeTracking := true }

/-- The state of the single-recording playback engine returned by
createPlaybackEngine in RecordingsList.js: the isPlaying flag, the current
Tone.Part when one exists, and the shared transport. -/
structure ListEngine where
  isPlaying : Bool
  currentPart : Option PartState
  transport : TransportState
  deriving Repr, DecidableEq

/-- The stop function of createPlaybackEngine in RecordingsList.js: an early
return when not playing; otherwise the current part is stopped, disposed
and cleared, and the transport is stopped, reset to position 0, and
cancelled. -/
def ListEngine.stop (e : ListEngine) : ListEngine :=
  if !e.isPlaying then e
  else
    { isPlaying := false
      currentPart := none
      transport := { running := false, position := 0, scheduled := [] } }

-- ===========================================================================
-- Recorder (page.js, recording.js)
-- ===========================================================================

/-- createEmptyRecording from recording.js: fresh id, empty name, no
instrument selected yet (the null of the source is modelled by the empty
string), no notes, zero duration. -/
def createEmptyRecording (freshId : String) : Recording :=
  { id := freshId, name := "", instrument := "", notes := [], duration := 0 }

/-- The recorder state held by page.js: the isRecording flag, the
recordingStartTime (none while idle), the in-progress recording ref, and
the recordings library list. -/
structure RecorderState where
  isRecording : Bool
  recordingStartTime : Option ℚ
  currentRecording : Recording
  recordings : List Recording
  deriving Repr, DecidableEq

/-- The capture path of onKeyDown in page.js: while recording, the played
note is stamped with timestamp = now - recordingStartTime and appended to
the in-progress notes, and the in-progress instrument is refreshed to the
selected one; while idle nothing is captured. -/
def captureNote (st : RecorderState) (now : ℚ) (nd : RecordedNote) :
    RecorderState :=
  if st.isRecording then
    { st with currentRecording :=
        { st.currentRecording with
          instrument := nd.instrument
          notes := st.currentRecording.notes ++
            [{ nd with timestamp := now - st.recordingStartTime.getD 0 }] } }
  else st

/-- A sequence of capture calls processed in arrival order: each entry is
the clock reading at arrival together with the played note. -/
def captureAll (st : RecorderState) : List (ℚ × RecordedNote) → RecorderState
  | [] => st
  | p :: ps => captureAll (captureNote st p.1 p.2) ps

/-- toggleRecording from page.js.  Pressed while idle it starts: a fresh
empty in-progress recording, start timestamp now, isRecording true.
Pressed while capturing it finalizes: duration := now - recordingStartTime,
the recording joins the library iff it has at least one note (with its id
replaced by a fresh one when the library already holds that id; the
retry loop of the source is modelled by a single replacement id), and the
recorder returns to idle with a fresh empty in-progress recording.  The
second component is the finalized recording that was kept, if any. -/
def toggleRecording (st : RecorderState) (now : ℚ) (freshId altId : String) :
    RecorderState × Option Recording :=
  if !st.isRecording then
    ({ st with
        currentRecording := createEmptyRecording freshId
        recordingStartTime := some now
        isRecording := true }, none)
  else
    let final₀ := { st.currentRecording with
      duration := now - st.recordingStartTime.getD 0 }
    let final := if st.recordings.any (fun r => r.id == final₀.id) then
        { final₀ with id := altId } else final₀
    if final.notes.isEmpty then
      ({ st with
          isRecording := false
          currentRecording := createEmptyRecording freshId
          recordingStartTime := none }, none)
    else
      ({ st with
          isRecording := false
          currentRecording := createEmptyRecording freshId
          recordingStartTime := none
          recordings := st.recordings ++ [final] }, some final)

/-- The stop operation of the recorder: the Capturing branch of
toggleRecording.  The record button is a stop affordance only while
capturing (pressed while idle the same button is a start), so a stop
request in the idle state leaves the recorder unchanged and yields none. -/
def stopRecording (st : RecorderState) (now : ℚ) (freshId altId : String) :
    RecorderState × Option Recording :=
  if st.isRecording then toggleRecording st now freshId altId else (st, none)

-- ===========================================================================
-- Persistence (storage.js) and the serialized recording format
-- ===========================================================================

/-- JSON values: the image of JSON.stringify on the plain recording data
(JavaScript numbers are modelled as rationals). -/
inductive Json where
  | jnull : Json
  | jbool : Bool → Json
  | jnum : ℚ → Json
  | jstr : String → Json
  | jarr : List Json → Json
  | jobj : List (String × Json) → Json

/-- The serialized form of one captured note: all fields, in property
order. -/
def encodeNote (n : RecordedNote) : Json :=
  .jobj [("instrument", .jstr n.instrument), ("note", .jstr n.note),
         ("row", .jstr n.row), ("i", .jnum n.i), ("len", .jnum n.len),
         ("timestamp", .jnum n.timestamp), ("duration", .jstr n.duration),
         ("velocity", .jnum n.velocity)]

/-- The serialized form of one recording. -/
def encodeRecording (r : Recording) : Json :=
  .jobj [("id", .jstr r.id), ("name", .jstr r.name),
         ("instrument", .jstr r.instrument),
         ("notes", .jarr (r.notes.map encodeNote)),
         ("duration", .jnum r.duration)]

/-- The serialized form of the whole recordings collection. -/
def encodeRecordings (rs : List Recording) : Json :=
  .jarr (rs.map encodeRecording)

/-- Property lookup on a parsed JSON object. -/
def getField (fields : List (String × Json)) (key : String) : Option Json :=
  (fields.find? (fun p => p.1 == key)).map (fun p => p.2)

/-- Read a JSON value as a string. -/
def Json.asStr : Json → Option String
  | .jstr s => some s
  | _ => none

/-- Read a JSON value as a number. -/
def Json.asNum : Json → Option ℚ
  | .jnum q => some q
  | _ => none

/-- Reading one note back out of its parsed JSON form, field by field. -/
def decodeNote : Json → Option RecordedNote
  | .jobj fields => do
      let instrument ← (getField fields "instrument").bind Json.asStr
      let note ← (getField fields "note").bind Json.asStr
      let row ← (getField fields "row").bind Json.asStr
      let i ← (getField fields "i").bind Json.asNum
      let len ← (getField fields "len").bind Json.asNum
      let timestamp ← (getField fields "timestamp").bind Json.asNum
      let duration ← (getField fields "duration").bind Json.asStr
      let velocity ← (getField fields "velocity").bind Json.asNum
      pure { instrument, note, row, i, len, timestamp, duration, velocity }
  | _ => none

/-- Reading a parsed JSON array back as the list of captured notes. -/
def decodeNotes : List Json → Option (List RecordedNote)
  | [] => some []
  | j :: js => do
      let n ← decodeNote j
      let ns ← decodeNotes js
      pure (n :: ns)

/-- Reading one recording back out of its parsed JSON form. -/
def decodeRecording : Json → Option Recording
  | .jobj fields => do
      let id ← (getField fields "id").bind Json.asStr
      let name ← (getField fields "name").bind Json.asStr
      let instrument ← (getField fields "instrument").bind Json.asStr
      let notesJson ← getField fields "notes"
      let notes ← match notesJson with
        | .jarr l => decodeNotes l
        | _ => none
      let duration ← (getField fields "duration").bind Json.asNum
      pure { id, name, instrument, notes, duration }
  | _ => none

/-- Reading a parsed JSON array back as the list of stored recordings. -/
def decodeRecordings : List Json → Option (List Recording)
  | [] => some []
  | j :: js => do
      let r ← decodeRecording j
      let rs ← decodeRecordings js
      pure (r :: rs)

/-- The localStorage slot under the typejam-recordings key: none when the
key is absent, otherwise the parsed form of the stored JSON string. -/
def Store := Option Json

/-- saveRecordings from storage.js: serialize the collection and overwrite
the stored value.  The quota-error path leaves the store unchanged and is
outside this model, which treats the write as succeeding. -/
def saveRecordings (recordings : List Recording) (_st : Store) : Store :=
  some (encodeRecordings recordings)

/-- loadRecordings from storage.js: an absent key yields the empty list; a
stored value that is not an array yields the empty list; otherwise the
stored recordings are returned (read back into the typed model). -/
def loadRecordings : Store → List Recording
  | none => []
  | some (.jarr items) => (decodeRecordings items).getD []
  | some _ => []

/-- clearRecordings from storage.js: remove the stored key. -/
def clearRecordings (_st : Store) : Store := none

/-- The auto-save effect of page.js: whenever the recordings list changes,
it is written to storage, but only when the list is non-empty. -/
def autoSaveStep (recordings : List Recording) (st : Store) : Store :=
  if recordings.length > 0 then saveRecordings recordings st else st

/-- handleDeleteRecording from page.js: drop the recording with the given
id from the in-memory list; the auto-save effect then runs on the updated
list. -/
def handleDeleteRecording (recordings : List Recording)
    (recordingId : String) : List Recording :=
  recordings.filter (fun r => r.id != recordingId)

-- ===========================================================================
-- Engine initialization (jamPlayback.js)
-- ===========================================================================

/-- Lookup in the recordings Map built by loadAllRecordings: Map.set
overwrites, so the last occurrence of an id wins. -/
def lookupRecording (library : List Recording) (recordingId : String) :
    Option Recording :=
  library.foldl (fun acc r => if r.id == recordingId then some r else acc) none

/-- loadAllRecordings from jamPlayback.js: index the stored library by id,
then throw when any session track references a missing recording id. -/
def loadAllRecordings (library : List Recording) (tracks : List JamTrack) :
    Except String Unit :=
  let missingRecordings := (tracks.filter
    (fun t => (lookupRecording library t.recordingId).isNone)).map
      (fun t => t.recordingId)
  if missingRecordings.isEmpty then .ok () else .error "Missing recordings"

/-- createInstruments from jamPlayback.js: take the instrument of every
track whose recording exists, and throw on any type absent from the
INSTRUMENTS registry; otherwise those instrument instances are created. -/
def createInstruments (library : List Recording)
    (knownInstruments : List String) (tracks : List JamTrack) :
    Except String (List String) :=
  let instrumentTypes := (tracks.filterMap
    (fun t => lookupRecording library t.recordingId)).map (fun r => r.instrument)
  if instrumentTypes.all (fun ty => knownInstruments.contains ty) then
    .ok instrumentTypes
  else .error "Unknown instrument type"

/-- createParts from jamPlayback.js: for each track, a missing recording or
a missing instrument instance skips that track with a console warning;
every other track gets a part holding its scheduled events. -/
def createParts (library : List Recording) (instruments : List String)
    (tracks : List JamTrack) : List (ℕ × List ToneEvent) :=
  tracks.filterMap (fun t =>
    match lookupRecording library t.recordingId with
    | none => none
    | some recording =>
      if instruments.contains recording.instrument then
        some (t.id, recording.notes.map (toneEventOfNote t))
      else none)

/-- init from jamPlayback.js: loadAllRecordings, then createInstruments,
then createParts; an error thrown by either loading step aborts the whole
initialization (init catches it, reports onError, and returns false). -/
def initEngine (library : List Recording) (knownInstruments : List String)
    (tracks : List JamTrack) : Except String (List (ℕ × List ToneEvent)) := do
  let _ ← loadAllRecordings library tracks
  let instruments ← createInstruments library knownInstruments tracks
  pure (createParts library instruments tracks)

-- ===========================================================================
-- Concrete inputs used by the witnesses and counterexamples
-- ===========================================================================

/-- A sample captured note. -/
def sampleNote : RecordedNote :=
  { instrument := "piano", note := "C4", row := "mid", i := 0, len := 9,
    timestamp := 120, duration := "8n", velocity := 9/10 }

/-- A second sample captured note. -/
def sampleNote₂ : RecordedNote :=
  { instrument := "piano", note := "D4", row := "mid", i := 1, len := 9,
    timestamp := 340, duration := "8n", velocity := 9/10 }

/-- A sample one-note recording in the library. -/
def pianoRecording : Recording :=
  { id := "a", name := "", instrument := "piano", notes := [sampleNote],
    duration := 500 }

/-- A track placed on the timeline for pianoRecording, soloed. -/
def soloTrackA : JamTrack :=
  { id := 0, recordingId := "a", startTime := 0, trackIndex := 0,
    volume := 1, muted := false, solo := true, duration := 1/2 }

/-- A second track, neither muted nor soloed. -/
def plainTrackB : JamTrack :=
  { id := 1, recordingId := "a", startTime := 2, trackIndex := 1,
    volume := 1, muted := false, solo := false, duration := 1/2 }

/-- A track whose volume slider sits at 0. -/
def zeroVolumeTrack : JamTrack :=
  { id := 2, recordingId := "a", startTime := 0, trackIndex := 0,
    volume := 0, muted := false, solo := false, duration := 1/2 }

/-- A session track referencing a recording id absent from the library. -/
def missingTrack : JamTrack :=
  { id := 3, recordingId := "gone", startTime := 0, trackIndex := 1,
    volume := 1, muted := false, solo := false, duration := 1/2 }

/-- A recorder that is idle with an empty library. -/
def idleRecorder : RecorderState :=
  { isRecording := false
    recordingStartTime := none
    currentRecording := createEmptyRecording "rec0"
    recordings := [] }

/-- A recorder in the middle of capturing, having started at time 0 and
captured one note. -/
def capturingRecorder : RecorderState :=
  { isRecording := true
    recordingStartTime := some 0
    currentRecording :=
      { id := "cur", name := "", instrument := "piano",
        notes := [sampleNote], duration := 0 }
    recordings := [] }

/-- The two-track session of the P6 scenario: A soloed, B plain. -/
def sessionAB : List JamTrack := [soloTrackA, plainTrackB]

-- ===========================================================================
-- Helper lemmas
-- ===========================================================================

/-- The or-with-zero default is the identity on numbers. -/
lemma jsOr_zero_default (x : ℚ) : jsOr x 0 = x := by
  by_cases h : x = 0 <;> simp [jsOr, h]

/-- Stopping the session engine twice equals stopping it once. -/
lemma jamEngine_stop_stop (e : JamEngine) : e.stop.stop = e.stop := by
  simp [JamEngine.stop, List.map_map]

/-- Stopping the single-recording engine twice equals stopping it once. -/
lemma listEngine_stop_stop (e : ListEngine) : e.stop.stop = e.stop := by
  by_cases h : e.isPlaying <;> simp [ListEngine.stop, h]

/-- Iterating an idempotent function one or more times equals applying it
once. -/
lemma iterate_of_idem {α : Type} (f : α → α) (hf : ∀ x, f (f x) = f x) :
    ∀ (n : ℕ) (x : α), f^[n + 1] x = f x := by
  intro n
  induction n with
  | zero => intro x; simp
  | succ n ih =>
    intro x
    rw [Function.iterate_succ_apply, ih (f x), hf]

/-- While recording, a run of capture calls appends exactly the received
notes, each stamped with its arrival time minus the recording start time. -/
lemma captureAll_notes (inputs : List (ℚ × RecordedNote)) :
    ∀ (st : RecorderState), st.isRecording = true →
      (captureAll st inputs).currentRecording.notes =
        st.currentRecording.notes ++ inputs.map
          (fun p => { p.2 with
            timestamp := p.1 - st.recordingStartTime.getD 0 }) := by
  induction inputs with
  | nil => intro st h; simp [captureAll]
  | cons p ps ih =>
    intro st h
    rw [captureAll, ih _ (by simp [captureNote, h])]
    simp [captureNote, h]

/-- Decoding inverts encoding on one note. -/
lemma decodeNote_encodeNote (n : RecordedNote) :
    decodeNote (encodeNote n) = some n := by
  rfl

/-- Decoding inverts encoding on a note list. -/
lemma decodeNotes_encode (l : List RecordedNote) :
    decodeNotes (l.map encodeNote) = some l := by
  induction l with
  | nil => rfl
  | cons n ns ih => simp [decodeNotes, decodeNote_encodeNote, ih]

/-- Decoding inverts encoding on one recording. -/
lemma decodeRecording_encodeRecording (r : Recording) :
    decodeRecording (encodeRecording r) = some r := by
  obtain ⟨id, name, instrument, notes, duration⟩ := r
  simp [decodeRecording, encodeRecording, getField, List.find?, Json.asStr,
    Json.asNum, decodeNotes_encode]

/-- Decoding inverts encoding on a recording list. -/
lemma decodeRecordings_encode (l : List Recording) :
    decodeRecordings (l.map encodeRecording) = some l := by
  induction l with
  | nil => rfl
  | cons r rs ih => simp [decodeRecordings, decodeRecording_encodeRecording, ih]

/-- The storage round trip: loading right after saving returns the saved
collection. -/
lemma loadRecordings_saveRecordings (recordings : List Recording)
    (st : Store) :
    loadRecordings (saveRecordings recordings st) = recordings := by
  simp [loadRecordings, saveRecordings, encodeRecordings,
    decodeRecordings_encode]

-- ===========================================================================
-- Claim theorems
-- ===========================================================================

/-- C1: the lane no-overlap placement invariant fails on the code.  From
the empty session, four addTrack calls (a one-second clip at offset 0, with
requested lanes 3, 9, 9, 9) drive findAvailableTrackIndex into its fallback
branch, which returns tracks.length = 3 — a lane that already holds an
overlapping track — instead of a brand-new lane beyond the current maximum,
so lane 3 ends up with two tracks whose intervals both equal [0, 1). -/
theorem findAvailableTrackIndex_fallback_overlaps :
    lanesNoOverlap overlapSession.tracks = false ∧
    overlapSession.tracks.map (fun t => t.trackIndex) = [3, 9, 2, 3] := by
  constructor <;>
    simp [overlapSession, emptySession, clipRecording, addTrack,
      findAvailableTrackIndex, overlapsTrack, createJamTrack,
      addTrackToSession, updateJamSession, calculateJamDuration,
      List.range', List.find?, lanesNoOverlap]

/-- C2: seeking to 5 seconds on a playing 10-second engine does not resume
from 5.  The play call issued at the end of seek performs a fresh start
that resets the transport position and the reported currentTime to 0, so
every scheduled event — including those with absolute time below 5 —
fires again. -/
theorem seek_resets_position_to_zero :
    (playingEngine.seek 5).currentTime = 0 ∧
    (playingEngine.seek 5).transport.position = 0 ∧
    (playingEngine.seek 5).isPlaying = true ∧
    eventsThatFire (playingEngine.seek 5) [1, 6] = [1, 6] := by
  norm_num [playingEngine, JamEngine.seek, JamEngine.stop, JamEngine.play,
    eventsThatFire]

/-- C3 counterexample: a session whose first track references the library
recording and whose second track references an absent id fails
initialization wholesale — loadAllRecordings throws before any part is
built, so the engine does not continue with the remaining valid track. -/
theorem initEngine_aborts_on_missing_recording :
    lookupRecording [pianoRecording] soloTrackA.recordingId
      = some pianoRecording ∧
    initEngine [pianoRecording] ["piano"] [soloTrackA, missingTrack]
      = .error "Missing recordings" := by
  exact ⟨rfl, rfl⟩

/-- C3 amended: createParts itself skips precisely the tracks whose
recording is missing from the library (or whose instrument instance is
absent) and builds a part, with its scheduled events, for every remaining
track, in order; the whole-session abort of the claim happens earlier, in
loadAllRecordings. -/
theorem createParts_skips_missing_recordings (library : List Recording)
    (instruments : List String) (tracks : List JamTrack) :
    ((createParts library instruments tracks).map Prod.fst =
      (tracks.filter (fun t =>
        match lookupRecording library t.recordingId with
        | none => false
        | some r => instruments.contains r.instrument)).map (fun t => t.id)) ∧
    (∀ t ∈ tracks, ∀ r, lookupRecording library t.recordingId = some r →
      instruments.contains r.instrument = true →
      (t.id, r.notes.map (toneEventOfNote t)) ∈
        createParts library instruments tracks) := by
  constructor
  · induction tracks with
    | nil => rfl
    | cons t ts ih =>
      cases h : lookupRecording library t.recordingId with
      | none =>
        simpa [createParts, List.filterMap_cons, List.filter_cons, h] using ih
      | some r =>
        by_cases hc : r.instrument ∈ instruments <;>
          simpa [createParts, List.filterMap_cons, List.filter_cons, h, hc]
            using ih
  · intro t ht r hr hc
    have hc₂ : r.instrument ∈ instruments := by simpa using hc
    exact List.mem_filterMap.mpr ⟨t, ht, by simp [hr, hc₂]⟩

/-- C3 amended witness: on the concrete library and track pair, the track
with the present recording does get its part. -/
theorem createParts_skips_missing_recordings_witness :
    (soloTrackA ∈ [soloTrackA, missingTrack] ∧
      lookupRecording [pianoRecording] soloTrackA.recordingId
        = some pianoRecording ∧
      (["piano"].contains pianoRecording.instrument) = true) ∧
    (soloTrackA.id, pianoRecording.notes.map (toneEventOfNote soloTrackA)) ∈
      createParts [pianoRecording] ["piano"] [soloTrackA, missingTrack] := by
  refine ⟨⟨by simp, by rfl, by rfl⟩, ?_⟩
  exact (createParts_skips_missing_recordings [pianoRecording] ["piano"]
    [soloTrackA, missingTrack]).2 soloTrackA (by simp) pianoRecording rfl rfl

/-- C4 (P6): during playback, a track with at least one event produces no
sounding notes exactly when it is muted, or when some track of the session
is soloed while it is not; with no soloed track and no mute, its events do
sound. -/
theorem mute_solo_suppression (tracks : List JamTrack)
    (recording : Recording) (track : JamTrack)
    (hne : recording.notes ≠ []) :
    soundingEvents tracks recording track = [] ↔
      (track.muted = true ∨
        ((∃ t ∈ tracks, t.solo = true) ∧ track.solo = false)) := by
  by_cases hm : track.muted = true
  · simp [soundingEvents, partCallbackSkips, hm]
  · rw [Bool.not_eq_true] at hm
    by_cases hs : track.solo = true
    · simp [soundingEvents, partCallbackSkips, hm, hs, hne]
    · rw [Bool.not_eq_true] at hs
      by_cases ha : tracks.any (fun t => t.solo) = true
      · simp [soundingEvents, partCallbackSkips, hm, hs, ha,
          ← List.any_eq_true]
      · simp [soundingEvents, partCallbackSkips, hm, hs, ha, hne,
          ← List.any_eq_true]

/-- C4 witness: in the session with soloed track A and plain track B over a
one-note recording, B sounds nothing and A sounds at least one event. -/
theorem mute_solo_suppression_witness :
    pianoRecording.notes ≠ [] ∧
    soundingEvents sessionAB pianoRecording plainTrackB = [] ∧
    soundingEvents sessionAB pianoRecording soloTrackA ≠ [] := by
  refine ⟨by simp [pianoRecording], ?_, ?_⟩
  · exact (mute_solo_suppression sessionAB pianoRecording plainTrackB
      (by simp [pianoRecording])).mpr
      (Or.inr ⟨⟨soloTrackA, by simp [sessionAB], rfl⟩, rfl⟩)
  · intro h
    have hres := (mute_solo_suppression sessionAB pianoRecording soloTrackA
      (by simp [pianoRecording])).mp h
    simp [soloTrackA] at hres

/-- C5 counterexample: for a track whose volume slider sits at 0 and a note
of recorded velocity 9/10, the scheduled velocity is 9/10 — the zero volume
is replaced by the or-default 1 — while the velocity formula of the claim
yields 0. -/
theorem toneEvent_velocity_zero_volume :
    (toneEventOfNote zeroVolumeTrack sampleNote).velocity = 9/10 ∧
    max 0 (min 1 (sampleNote.velocity * zeroVolumeTrack.volume)) = 0 ∧
    (9/10 : ℚ) ≠ 0 := by
  norm_num [toneEventOfNote, jsOr, sampleNote, zeroVolumeTrack]

/-- C5 amended: the scheduling formula of the claim holds whenever the
recorded velocity and the track volume are nonzero (a zero value is falsy
in the source and replaced by the defaults 0.5 and 1) and the track offset
and note timestamp are nonnegative (the source additionally clamps the
absolute time at 0). -/
theorem toneEvent_formula (track : JamTrack) (n : RecordedNote)
    (hv : n.velocity ≠ 0) (hm : track.volume ≠ 0)
    (hs : 0 ≤ track.startTime) (ht : 0 ≤ n.timestamp) :
    (toneEventOfNote track n).time = track.startTime + n.timestamp / 1000 ∧
    (toneEventOfNote track n).velocity
      = max 0 (min 1 (n.velocity * track.volume)) := by
  constructor
  · have h1 : (0:ℚ) ≤ track.startTime + n.timestamp / 1000 :=
      add_nonneg hs (by positivity)
    simp [toneEventOfNote, jsOr_zero_default, max_eq_right h1]
  · simp [toneEventOfNote, jsOr, hv, hm]

/-- C5 amended witness: the formula evaluated on track B and the sample
note. -/
theorem toneEvent_formula_witness :
    (toneEventOfNote plainTrackB sampleNote).time
        = plainTrackB.startTime + sampleNote.timestamp / 1000 ∧
    (toneEventOfNote plainTrackB sampleNote).velocity
        = max 0 (min 1 (sampleNote.velocity * plainTrackB.volume)) :=
  toneEvent_formula plainTrackB sampleNote (by norm_num [sampleNote])
    (by norm_num [plainTrackB]) (by norm_num [plainTrackB])
    (by norm_num [sampleNote])

/-- C6 (P1): offset monotonicity.  Starting a recording and processing any
run of capture calls in arrival order yields note timestamps that are
pairwise non-decreasing along the list (that is, for all positions i below
j, the timestamp at i is at most the timestamp at j), provided the clock
readings of the capture calls are non-decreasing. -/
theorem capture_offsets_monotone (start : ℚ) (freshId : String)
    (inputs : List (ℚ × RecordedNote))
    (hmono : (inputs.map Prod.fst).Pairwise (· ≤ ·)) :
    (((captureAll (toggleRecording idleRecorder start freshId freshId).1
        inputs).currentRecording.notes.map
      (fun nd => nd.timestamp)).Pairwise (· ≤ ·)) := by
  have hstart : (toggleRecording idleRecorder start freshId
      freshId).1.isRecording = true := by
    simp [toggleRecording, idleRecorder]
  have hnotes : (captureAll (toggleRecording idleRecorder start freshId
      freshId).1 inputs).currentRecording.notes =
      inputs.map (fun p => { p.2 with timestamp := p.1 - start }) := by
    rw [captureAll_notes _ _ hstart]
    simp [toggleRecording, idleRecorder, createEmptyRecording]
  rw [hnotes, List.map_map]
  have hsub : ((inputs.map Prod.fst).map (fun x => x - start)).Pairwise
      (· ≤ ·) :=
    hmono.map (fun x => x - start) (fun a b hab => sub_le_sub_right hab start)
  rw [List.map_map] at hsub
  exact hsub

/-- C6 witness: two captures at clock readings 10 and 20 after a start at 0
produce non-decreasing timestamps. -/
theorem capture_offsets_monotone_witness :
    ((([(10, sampleNote), (20, sampleNote₂)] : List (ℚ × RecordedNote)).map
        Prod.fst).Pairwise (· ≤ ·)) ∧
    (((captureAll (toggleRecording idleRecorder 0 "f" "f").1
        [(10, sampleNote), (20, sampleNote₂)]).currentRecording.notes.map
      (fun nd => nd.timestamp)).Pairwise (· ≤ ·)) := by
  have h : ((([(10, sampleNote), (20, sampleNote₂)] :
      List (ℚ × RecordedNote)).map Prod.fst).Pairwise (· ≤ ·)) := by
    norm_num [List.pairwise_cons]
  exact ⟨h, capture_offsets_monotone 0 "f"
    [(10, sampleNote), (20, sampleNote₂)] h⟩

/-- C7 (P2): recorder stop finalization.  A stop request while idle is a
no-op returning none.  A stop while capturing leaves the recorder idle;
it returns none exactly when no note was captured, in which case the
library is unchanged (the empty recording is discarded); a returned
recording carries duration now minus the start timestamp and the captured
notes, and is appended to the library; and afterward the toggle acts as a
start again. -/
theorem stopRecording_finalization (st : RecorderState) (now now₂ : ℚ)
    (freshId altId freshId₂ altId₂ : String) :
    (st.isRecording = false → stopRecording st now freshId altId = (st, none)) ∧
    (st.isRecording = true →
      (stopRecording st now freshId altId).1.isRecording = false ∧
      ((stopRecording st now freshId altId).2 = none ↔
        st.currentRecording.notes = []) ∧
      (st.currentRecording.notes = [] →
        (stopRecording st now freshId altId).1.recordings = st.recordings) ∧
      (∀ r, (stopRecording st now freshId altId).2 = some r →
        r.duration = now - st.recordingStartTime.getD 0 ∧
        r.notes = st.currentRecording.notes ∧
        (stopRecording st now freshId altId).1.recordings
          = st.recordings ++ [r]) ∧
      (toggleRecording (stopRecording st now freshId altId).1 now₂
        freshId₂ altId₂).1.isRecording = true) := by
  constructor
  · intro h; simp [stopRecording, h]
  · intro h
    have hs : stopRecording st now freshId altId
        = toggleRecording st now freshId altId := by
      simp [stopRecording, h]
    by_cases hn : st.currentRecording.notes = [] <;>
      by_cases hd : st.recordings.any
        (fun r => r.id == st.currentRecording.id) = true <;>
      simp [hs, toggleRecording, h, hn, hd, List.isEmpty_iff]

/-- C7 witness: stop on the idle recorder is a no-op returning none, and
stop on the capturing recorder (one note captured) finalizes to idle with
a kept recording, after which the toggle starts again. -/
theorem stopRecording_finalization_witness :
    stopRecording idleRecorder 5 "f1" "g1" = (idleRecorder, none) ∧
    (stopRecording capturingRecorder 500 "f2" "g2").1.isRecording = false ∧
    ((stopRecording capturingRecorder 500 "f2" "g2").2 = none ↔
      capturingRecorder.currentRecording.notes = []) ∧
    (toggleRecording (stopRecording capturingRecorder 500 "f2" "g2").1
      600 "f3" "g3").1.isRecording = true := by
  refine ⟨(stopRecording_finalization idleRecorder 5 0 "f1" "g1" "x" "y").1 rfl,
    ?_, ?_, ?_⟩
  · exact ((stopRecording_finalization capturingRecorder 500 600 "f2" "g2"
      "f3" "g3").2 rfl).1
  · exact ((stopRecording_finalization capturingRecorder 500 600 "f2" "g2"
      "f3" "g3").2 rfl).2.1
  · exact ((stopRecording_finalization capturingRecorder 500 600 "f2" "g2"
      "f3" "g3").2 rfl).2.2.2.2

/-- C8 (P3): stop is idempotent for both playback engines — n + 1
successive stop calls, for any n, leave either engine in the same final
state as a single stop call; in particular stop on an already stopped
engine changes nothing. -/
theorem stop_idempotent :
    (∀ (e : JamEngine) (n : ℕ), JamEngine.stop^[n + 1] e = e.stop) ∧
    (∀ (e : ListEngine) (n : ℕ), ListEngine.stop^[n + 1] e = e.stop) :=
  ⟨fun e n => iterate_of_idem _ jamEngine_stop_stop n e,
   fun e n => iterate_of_idem _ listEngine_stop_stop n e⟩

/-- C9 (P4): the serialization round trip.  Saving any sequence of
recordings through the persistence gateway and loading it back reproduces
the sequence exactly, preserving event order and every field. -/
theorem recordings_round_trip (recordings : List Recording) (st : Store) :
    loadRecordings (saveRecordings recordings st) = recordings :=
  loadRecordings_saveRecordings recordings st

/-- C10: the persisted library survives an emptying deletion.  When the
previously saved list is non-empty and a delete empties the in-memory
list, the auto-save step leaves the stored value unchanged, a subsequent
load returns the previously saved list, and only the explicit clear
operation removes the stored collection. -/
theorem delete_last_keeps_persisted (prior current : List Recording)
    (rid : String) (st₀ : Store) (_hprior : prior ≠ [])
    (hdel : handleDeleteRecording current rid = []) :
    autoSaveStep (handleDeleteRecording current rid) (saveRecordings prior st₀)
      = saveRecordings prior st₀ ∧
    loadRecordings (saveRecordings prior st₀) = prior ∧
    clearRecordings (saveRecordings prior st₀) = none ∧
    loadRecordings (clearRecordings (saveRecordings prior st₀)) = [] := by
  rw [hdel]
  exact ⟨rfl, loadRecordings_saveRecordings prior st₀, rfl, rfl⟩

/-- C10 witness: deleting the single stored piano recording empties the
list, the store keeps its previous value, and load still returns that
recording. -/
theorem delete_last_keeps_persisted_witness :
    ([pianoRecording] ≠ ([] : List Recording)) ∧
    handleDeleteRecording [pianoRecording] "a" = [] ∧
    autoSaveStep (handleDeleteRecording [pianoRecording] "a")
      (saveRecordings [pianoRecording] none)
        = saveRecordings [pianoRecording] none ∧
    loadRecordings (saveRecordings [pianoRecording] none)
      = [pianoRecording] := by
  have hdel : handleDeleteRecording [pianoRecording] "a" = [] := by
    simp [handleDeleteRecording, pianoRecording]
  refine ⟨by simp, hdel, ?_, ?_⟩
  · exact (delete_last_keeps_persisted [pianoRecording] [pianoRecording] "a"
      none (by simp) hdel).1
  · exact (delete_last_keeps_persisted [pianoRecording] [pianoRecording] "a"
      none (by simp) hdel).2.1

end TypeJam
